import Mathlib

/-!
Shallow embedding of `openeo/rest/_testing.py` (`DummyBackend`), the programmable
mock backend of the openeo-python-client test helpers, together with proofs about
the behaviour of its handlers, its job registry and its scripted status flow.

Python dicts are modelled as insertion-ordered association lists with unique keys
(`dictGet` models `d.get(k)` / `k in d`, `dictSet` models `d[k] = v`).
Python byte strings are modelled as `List Nat` (one entry per byte), and
`str.encode("utf-8")` is modelled by an explicit UTF-8 encoder.
Raised exceptions are modelled with `Except`: `OpeneoTestingException` keeps its
message, a failed `assert` statement is modelled by `BackendError.assertionError`
carrying the asserted source expression (a plain `AssertionError` in Python).
-/

/-- Model of Python `dict.get`: first binding of the key, if any. -/
def dictGet {α : Type} : List (String × α) → String → Option α
  | [], _ => none
  | (k, v) :: rest, key => if k = key then some v else dictGet rest key

/-- Model of Python `d[k] = v`: update the binding in place, or append a fresh one. -/
def dictSet {α : Type} : List (String × α) → String → α → List (String × α)
  | [], key, v => [(key, v)]
  | (k, w) :: rest, key, v =>
    if k = key then (key, v) :: rest else (k, w) :: dictSet rest key v

/-- UTF-8 encoding of a single character (code point), as byte values. -/
def utf8Bytes (c : Char) : List Nat :=
  let n := c.toNat
  if n < 128 then [n]
  else if n < 2048 then [192 + n / 64, 128 + n % 64]
  else if n < 65536 then [224 + n / 4096, 128 + (n / 64) % 64, 128 + n % 64]
  else [240 + n / 262144, 128 + (n / 4096) % 64, 128 + (n / 64) % 64, 128 + n % 64]

/-- Model of Python `s.encode("utf-8")`. -/
def strToBytes (s : String) : List Nat :=
  List.flatten (s.toList.map utf8Bytes)

/-- JSON-like values, modelling the Python dict/list/str/int data accepted as
scripted results (`next_result`). -/
inductive JsonVal where
  | jnull
  | jbool (b : Bool)
  | jnum (n : Int)
  | jstr (s : String)
  | jarr (xs : List JsonVal)
  | jobj (fields : List (String × JsonVal))

/-- Escaping of backslash and double quote inside a JSON string literal
(the model covers strings without control characters). -/
def jsonEscape (s : String) : String :=
  String.join (s.toList.map (fun c =>
    if c = '\\' then "\\\\" else if c = '"' then "\\\"" else String.singleton c))

mutual
/-- Model of Python `json.dumps` with its default separators. -/
def jsonDumps : JsonVal → String
  | .jnull => "null"
  | .jbool true => "true"
  | .jbool false => "false"
  | .jnum n => toString n
  | .jstr s => "\"" ++ jsonEscape s ++ "\""
  | .jarr xs => "[" ++ jsonDumpsList xs ++ "]"
  | .jobj fs => "\x7b" ++ jsonDumpsFields fs ++ "\x7d"

def jsonDumpsList : List JsonVal → String
  | [] => ""
  | [x] => jsonDumps x
  | x :: y :: xs => jsonDumps x ++ ", " ++ jsonDumpsList (y :: xs)

def jsonDumpsFields : List (String × JsonVal) → String
  | [] => ""
  | [(k, v)] => "\"" ++ jsonEscape k ++ "\": " ++ jsonDumps v
  | (k, v) :: f :: fs => "\"" ++ jsonEscape k ++ "\": " ++ jsonDumps v ++ ", " ++ jsonDumpsFields (f :: fs)
end

/-- The scripted result value `next_result`: Python bytes, str, or dict/list data. -/
inductive PyResult where
  | bytes (bs : List Nat)
  | text (s : String)
  | json (v : JsonVal)

/-- Normalization of `next_result` performed by `_handle_post_result`
(lines 77-81 of `_testing.py`): dict/list data is JSON-serialized and UTF-8
encoded, text is UTF-8 encoded, bytes pass through. -/
def normalizeResult : PyResult → List Nat
  | .bytes bs => bs
  | .text s => strToBytes s
  | .json v => strToBytes (jsonDumps v)

/-- Truthiness of the optional `process_id` argument of `get_pg`
(`if process_id:` in Python): absent or empty strings are falsy. -/
def pyTruthy : Option String → Bool
  | none => false
  | some s => !s.isEmpty

/-- A process graph node descriptor: a Python dict; for the inspection API only
string-valued entries (such as `process_id`) are relevant. -/
abbrev PyDict := List (String × String)

/-- A flat process graph: mapping from node id to node descriptor. -/
abbrev PG := List (String × PyDict)

/-- Decimal digit characters, as written by Python string formatting. -/
def digitChar : Nat → Char
  | 0 => '0' | 1 => '1' | 2 => '2' | 3 => '3' | 4 => '4'
  | 5 => '5' | 6 => '6' | 7 => '7' | 8 => '8' | _ => '9'

/-- Numeric value of a decimal digit character. -/
def digitVal (c : Char) : Nat := c.toNat - 48

/-- Big-endian decimal digits, with an explicit fuel bound so that the
definition is structurally recursive (and hence kernel-reducible). -/
def decCharsAux : Nat → Nat → List Char
  | 0, _ => []
  | fuel + 1, n =>
    if n < 10 then [digitChar n]
    else decCharsAux fuel (n / 10) ++ [digitChar (n % 10)]

/-- Big-endian decimal digits of a natural number (no leading zeros). -/
def decChars (n : Nat) : List Char := decCharsAux (n + 1) n

/-- Value of a big-endian digit-character list. -/
def charsVal (cs : List Char) : Nat :=
  cs.foldl (fun a c => a * 10 + digitVal c) 0

/-- Zero padding to a minimum width of 3, modelling Python `f"{n:03d}"`. -/
def zeroPad3 (n : Nat) : List Char :=
  List.replicate (3 - (decChars n).length) '0' ++ decChars n

/-- The job id assigned at creation: `f"job-{len(self.batch_jobs):03d}"`. -/
def jobIdFormat (n : Nat) : String :=
  "job-" ++ String.mk (zeroPad3 n)

/-- One record of the `batch_jobs` registry (the Python dict built by
`_handle_post_jobs`): the fixed keys `job_id`, `pg`, `status` are typed fields,
the optional metadata keys (`title`, `description`, extra fields) live in `meta`;
a `meta` value of `none` models the Python value `None`. -/
structure JobData where
  job_id : String
  pg : PG
  status : String
  meta : List (String × Option String)
deriving DecidableEq

/-- Error signals of the dummy backend: a raised `OpeneoTestingException` with its
message, or a failed `assert` statement (tagged with the asserted source
expression; in Python this is an argument-less generic `AssertionError`). -/
inductive BackendError where
  | openeoTestingException (msg : String)
  | assertionError (site : String)
deriving DecidableEq

/-- The installed `job_status_updater` hook: either the default
`lambda job_id, current_status: "finished"` or the scripted closure built by
`setup_simple_job_status_flow` (whose `job_stacks` state is kept separately in
the backend state, see `DummyBackend.job_stacks`). -/
inductive StatusUpdater where
  | immediateFinish
  | simpleFlow (template : List String)

/-- The `job_stacks` defaultdict captured by the scripted status closure:
per-job remaining script. -/
abbrev UpdState := List (String × List String)

/-- Run the status updater hook on `(job_id, current_status)`, threading the
`job_stacks` closure state. `simpleFlow` models `get_status` of
`setup_simple_job_status_flow`: look up (or lazily create) the per-job stack,
pop the first item while more than one remains, else repeat the last one. -/
def runUpdater : StatusUpdater → UpdState → String → String → String × UpdState
  | .immediateFinish, st, _jid, _cur => ("finished", st)
  | .simpleFlow template, st, jid, _cur =>
    let stack := (dictGet st jid).getD template
    match stack with
    | [] => ("", dictSet st jid [])
    | s :: rest =>
      if rest.isEmpty then (s, dictSet st jid [s])
      else (s, dictSet st jid rest)

/-- The mutable state of one `DummyBackend` instance (the `__slots__` fields that
the modelled handlers touch; the requests-mock wiring, validation log and
connection are outside the modelled core). -/
structure DummyBackend where
  sync_requests : List PG
  batch_jobs : List (String × JobData)
  next_result : PyResult
  extra_job_metadata_fields : List String
  job_status_updater : StatusUpdater
  job_stacks : UpdState

/-- `DummyBackend.DEFAULT_RESULT = b'\x7b"what?": "Result data"\x7d'`. -/
def DEFAULT_RESULT : List Nat := strToBytes "\x7b\"what?\": \"Result data\"\x7d"

/-- A freshly constructed `DummyBackend` (`__init__`). -/
def initialBackend : DummyBackend :=
  { sync_requests := []
    batch_jobs := []
    next_result := .bytes DEFAULT_RESULT
    extra_job_metadata_fields := []
    job_status_updater := .immediateFinish
    job_stacks := [] }

/-- Response of `POST /jobs`: status code plus the `openeo-identifier` header. -/
structure PostJobsResponse where
  status_code : Nat
  openeo_identifier : String
deriving DecidableEq

/-- Response body of `GET /jobs/{job_id}`. -/
structure GetJobResponse where
  id : String
  status : String
deriving DecidableEq

/-- Request body of `POST /jobs`: the process graph plus the remaining top-level
fields of `post_data` (`title`, `description`, extra metadata), as a dict. -/
structure PostJobsBody where
  pg : PG
  fields : List (String × String)

namespace DummyBackend

/-- Handler of `POST /result` (synchronous execute): append the posted graph to
`sync_requests` and return the normalized `next_result` bytes. -/
def _handle_post_result (b : DummyBackend) (pg : PG) : DummyBackend × List Nat :=
  ({ b with sync_requests := b.sync_requests ++ [pg] }, normalizeResult b.next_result)

/-- The two metadata loops of `_handle_post_jobs`: copy `title`/`description`
when present in the request body, then set every configured extra field to
`post_data.get(field)`. -/
def buildJobMeta (fields : List (String × String)) (extra : List String) :
    List (String × Option String) :=
  let meta0 := ["title", "description"].foldl
    (fun m f => match dictGet fields f with
      | some v => dictSet m f (some v)
      | none => m) []
  extra.foldl (fun m f => dictSet m f (dictGet fields f)) meta0

/-- Handler of `POST /jobs` (create batch job). -/
def _handle_post_jobs (b : DummyBackend) (post_data : PostJobsBody) :
    DummyBackend × PostJobsResponse :=
  let job_id := jobIdFormat b.batch_jobs.length
  let job_data : JobData :=
    { job_id := job_id
      pg := post_data.pg
      status := "created"
      meta := buildJobMeta post_data.fields b.extra_job_metadata_fields }
  ({ b with batch_jobs := dictSet b.batch_jobs job_id job_data },
   { status_code := 201, openeo_identifier := job_id })

/-- Model of `re.match(r"^/jobs/(job-\d+)(/|$)", path)`, returning group 1. -/
def parseJobPath (path : String) : Option String :=
  match path.toList with
  | '/' :: 'j' :: 'o' :: 'b' :: 's' :: '/' :: 'j' :: 'o' :: 'b' :: '-' :: rest =>
    let ds := rest.takeWhile Char.isDigit
    if ds.isEmpty then none
    else
      match rest.dropWhile Char.isDigit with
      | [] => some (String.mk ('j' :: 'o' :: 'b' :: '-' :: ds))
      | '/' :: _ => some (String.mk ('j' :: 'o' :: 'b' :: '-' :: ds))
      | _ => none
  | _ => none

/-- `_get_job_id`: extract the job id from the request path (named
`OpeneoTestingException` on no match) and assert that it is a known job
(a bare `assert job_id in self.batch_jobs`). -/
def _get_job_id (b : DummyBackend) (path : String) : Except BackendError String :=
  match parseJobPath path with
  | none => .error (.openeoTestingException ("Failed to extract job_id from " ++ path))
  | some job_id =>
    match dictGet b.batch_jobs job_id with
    | some _ => .ok job_id
    | none => .error (.assertionError "job_id in self.batch_jobs")

/-- Handler of `POST /jobs/{job_id}/results` (start batch job): assert status
`created`, invoke the status hook, store its result, respond 202. -/
def _handle_post_job_results (b : DummyBackend) (path : String) :
    Except BackendError (DummyBackend × Nat) :=
  match _get_job_id b path with
  | .error e => .error e
  | .ok job_id =>
    match dictGet b.batch_jobs job_id with
    | none => .error (.assertionError "job_id in self.batch_jobs")
    | some jd =>
      if jd.status = "created" then
        let r := runUpdater b.job_status_updater b.job_stacks job_id jd.status
        .ok ({ b with
                batch_jobs := dictSet b.batch_jobs job_id { jd with status := r.1 }
                job_stacks := r.2 }, 202)
      else .error (.assertionError "self.batch_jobs[job_id][status] == created")

/-- Handler of `GET /jobs/{job_id}` (get batch job status): once the job got past
`created`, re-invoke the status hook and store its result; reply `{id, status}`. -/
def _handle_get_job (b : DummyBackend) (path : String) :
    Except BackendError (DummyBackend × GetJobResponse) :=
  match _get_job_id b path with
  | .error e => .error e
  | .ok job_id =>
    match dictGet b.batch_jobs job_id with
    | none => .error (.assertionError "job_id in self.batch_jobs")
    | some jd =>
      if jd.status ≠ "created" then
        let r := runUpdater b.job_status_updater b.job_stacks job_id jd.status
        .ok ({ b with
                batch_jobs := dictSet b.batch_jobs job_id { jd with status := r.1 }
                job_stacks := r.2 },
             { id := job_id, status := r.1 })
      else .ok (b, { id := job_id, status := jd.status })

/-- Handler of `GET /jobs/{job_id}/results/result.data` (get batch job result
asset): assert status `finished` and return `next_result` unchanged. -/
def _handle_get_job_result_asset (b : DummyBackend) (path : String) :
    Except BackendError PyResult :=
  match _get_job_id b path with
  | .error e => .error e
  | .ok job_id =>
    match dictGet b.batch_jobs job_id with
    | none => .error (.assertionError "job_id in self.batch_jobs")
    | some jd =>
      if jd.status = "finished" then .ok b.next_result
      else .error (.assertionError "self.batch_jobs[job_id][status] == finished")

/-- The pool collected by `get_pg`: all sync graphs plus all batch job graphs. -/
def collectedPgs (b : DummyBackend) : List PG :=
  b.sync_requests ++ b.batch_jobs.map (fun kv => kv.2.pg)

/-- The node filter of `get_pg`:
`[node for node in pg.values() if node.get("process_id") == process_id]`. -/
def foundNodes (pg : PG) (process_id : Option String) : List PyDict :=
  (pg.map (fun kv => kv.2)).filter (fun node => dictGet node "process_id" == process_id)

/-- Python `repr` of a string (the model covers strings without quotes to escape). -/
def pyReprStr (s : String) : String := "'" ++ s ++ "'"

/-- Python `repr` of the `process_id` argument. -/
def pyReprOpt : Option String → String
  | some s => pyReprStr s
  | none => "None"

/-- Rendering of a node dict inside the `get_pg` error message (Python `repr`). -/
def pyReprDict (d : PyDict) : String :=
  "\x7b" ++ String.intercalate ", " (d.map (fun kv => pyReprStr kv.1 ++ ": " ++ pyReprStr kv.2)) ++ "\x7d"

/-- Rendering of the `found` node list inside the `get_pg` error message. -/
def pyReprDictList (ds : List PyDict) : String :=
  "[" ++ String.intercalate ", " (ds.map pyReprDict) ++ "]"

/-- Message of the ambiguous-pool error of `get_pg`. -/
def graphCountMsg (n : Nat) : String :=
  "Expected single process graph, but collected " ++ toString n

/-- Message of the ambiguous-node error of `get_pg`. -/
def nodeCountMsg (process_id : Option String) (found : List PyDict) : String :=
  "Expected single process graph node with process_id " ++ pyReprOpt process_id ++
    ", but found " ++ toString found.length ++ ": " ++ pyReprDictList found

/-- Result of `get_pg`: a whole flat graph, or a single node selected by
`process_id`. -/
inductive PgResult where
  | graph (pg : PG)
  | node (n : PyDict)

/-- `get_pg`: the combined single-graph inspection query. -/
def get_pg (b : DummyBackend) (process_id : Option String) :
    Except BackendError PgResult :=
  let pgs := collectedPgs b
  if pgs.length ≠ 1 then
    .error (.openeoTestingException (graphCountMsg pgs.length))
  else
    let pg := pgs.headD []
    if pyTruthy process_id then
      let found := foundNodes pg process_id
      if found.length ≠ 1 then
        .error (.openeoTestingException (nodeCountMsg process_id found))
      else .ok (.node (found.headD []))
    else .ok (.graph pg)

/-- `setup_simple_job_status_flow`: install the scripted status policy with a
fresh (empty) `job_stacks` defaultdict. -/
def setup_simple_job_status_flow (b : DummyBackend) (queued : Nat) (running : Nat)
    (final : String) : DummyBackend :=
  let template := List.replicate queued "queued" ++ List.replicate running "running" ++ [final]
  { b with job_status_updater := .simpleFlow template, job_stacks := [] }

end DummyBackend

/-! ### Test-harness helpers and concrete fixtures

The following definitions are not part of the embedded source; they drive the
embedded handlers on concrete inputs, the way a test run drives a live
`DummyBackend` instance. -/

/-- Classify a `BackendError`: a named `OpeneoTestingException` versus a generic
assertion failure. -/
def isNamedError : BackendError → Bool
  | .openeoTestingException _ => true
  | .assertionError _ => false

/-- Error-kind observation of a handler outcome (`none` on success). -/
def errKindOf {α : Type} : Except BackendError α → Option Bool
  | .error e => some (isNamedError e)
  | .ok _ => none

/-- One `GET /jobs/{job_id}` round trip: next backend state and reported status
(on handler failure the state is kept and the empty status is reported; all
concrete runs below stay on the success path). -/
def readStep (b : DummyBackend) (path : String) : DummyBackend × String :=
  match DummyBackend._handle_get_job b path with
  | .ok r => (r.1, r.2.status)
  | .error _ => (b, "")

/-- The statuses reported by `n` consecutive `GET /jobs/{job_id}` reads. -/
def readStatuses (b : DummyBackend) (path : String) : Nat → List String
  | 0 => []
  | n + 1 => (readStep b path).2 :: readStatuses (readStep b path).1 path n

/-- The backend state after `n` consecutive `GET /jobs/{job_id}` reads. -/
def iterReads (b : DummyBackend) (path : String) : Nat → DummyBackend
  | 0 => b
  | n + 1 => iterReads (readStep b path).1 path n

/-- A simple one-node job creation request body. -/
def simpleBody : PostJobsBody :=
  { pg := [("add1", [("process_id", "add")])], fields := [] }

/-- C1 fixture: fresh backend with the scripted policy
`queued=1, running=4, final="finished"` installed. -/
def c1Setup : DummyBackend :=
  DummyBackend.setup_simple_job_status_flow initialBackend 1 4 "finished"

/-- C1 fixture: one job (`job-000`) created on the scripted backend. -/
def c1Created : DummyBackend :=
  (DummyBackend._handle_post_jobs c1Setup simpleBody).1

/-- C1 fixture: the same job after `POST /jobs/job-000/results` (start). -/
def c1Started : DummyBackend :=
  match DummyBackend._handle_post_job_results c1Created "/jobs/job-000" with
  | .ok r => r.1
  | .error _ => c1Created

/-- C1 fixture: the backend state once five status reads have been served
(a fixed point of further reads). -/
def c1Settled : DummyBackend := iterReads c1Started "/jobs/job-000" 5

/-- The registry record of `job-000` right after creation on the scripted backend. -/
def c1JobData : JobData :=
  { job_id := "job-000", pg := simpleBody.pg, status := "created", meta := [] }

/-- Drive a sequence of `POST /jobs` requests, collecting the responses. -/
def createJobs : DummyBackend → List PostJobsBody → DummyBackend × List PostJobsResponse
  | b, [] => (b, [])
  | b, body :: rest =>
    let r := DummyBackend._handle_post_jobs b body
    let rr := createJobs r.1 rest
    (rr.1, r.2 :: rr.2)

/-- C4 fixture: two job creation requests. -/
def c4Bodies : List PostJobsBody := [simpleBody, simpleBody]

/-- C5 fixture: backend after one synchronous execution and one batch job. -/
def c5Both : DummyBackend :=
  (DummyBackend._handle_post_jobs
    (DummyBackend._handle_post_result initialBackend simpleBody.pg).1 simpleBody).1

/-- C6 fixture: a structured (mapping) scripted result. -/
def c6Val : JsonVal := .jobj [("a", .jnum 1)]

/-- C6 fixture: fresh backend whose `next_result` is the mapping `c6Val`. -/
def c6B0 : DummyBackend := { initialBackend with next_result := PyResult.json c6Val }

/-- C6 fixture: one job created on `c6B0`. -/
def c6Created : DummyBackend := (DummyBackend._handle_post_jobs c6B0 simpleBody).1

/-- C6 fixture: the job started; the default hook sets its status to `finished`. -/
def c6Backend : DummyBackend :=
  match DummyBackend._handle_post_job_results c6Created "/jobs/job-000" with
  | .ok r => r.1
  | .error _ => c6Created

/-- The registry record of `job-000` on `c6Backend` (already `finished`). -/
def c6JobData : JobData :=
  { job_id := "job-000", pg := simpleBody.pg, status := "finished", meta := [] }

/-- C8 fixture: fresh backend configured to track the extra metadata field `foo`. -/
def c8Backend : DummyBackend := { initialBackend with extra_job_metadata_fields := ["foo"] }

/-- C8 fixture: a creation body carrying a title but no `foo` field. -/
def c8Body : PostJobsBody := { pg := simpleBody.pg, fields := [("title", "Job title")] }

/-- C8 fixture: the job created from `c8Body` on `c8Backend`. -/
def c8Created : DummyBackend := (DummyBackend._handle_post_jobs c8Backend c8Body).1

/-- C10 fixture: a node descriptor without a `process_id` key. -/
def bareNode : PyDict := [("arguments", "stuff")]

/-! ### Association-list lemmas -/

theorem dictGet_dictSet_self {α : Type} (d : List (String × α)) (k : String) (v : α) :
    dictGet (dictSet d k v) k = some v := by
  induction d with
  | nil => simp [dictGet, dictSet]
  | cons kv rest ih =>
    by_cases h : kv.1 = k
    · simp [dictSet, dictGet, h]
    · simp [dictSet, dictGet, h, ih]

theorem dictGet_dictSet_ne {α : Type} (d : List (String × α)) (k f : String) (v : α)
    (h : f ≠ k) : dictGet (dictSet d k v) f = dictGet d f := by
  induction d with
  | nil => simp [dictGet, dictSet, Ne.symm h]
  | cons kv rest ih =>
    by_cases hk : kv.1 = k
    · simp [dictSet, dictGet, hk, Ne.symm h]
    · by_cases hf : kv.1 = f
      · simp [dictSet, dictGet, hk, hf, h]
      · simp [dictSet, dictGet, hk, hf, ih]

theorem dictGet_eq_none_of_not_mem {α : Type} (d : List (String × α)) (k : String)
    (h : k ∉ d.map Prod.fst) : dictGet d k = none := by
  induction d with
  | nil => rfl
  | cons kv rest ih =>
    simp only [List.map_cons, List.mem_cons, not_or] at h
    simp [dictGet, Ne.symm h.1, ih h.2]

theorem dictSet_append_of_fresh {α : Type} (d : List (String × α)) (k : String) (v : α)
    (h : dictGet d k = none) : dictSet d k v = d ++ [(k, v)] := by
  induction d with
  | nil => rfl
  | cons kv rest ih =>
    by_cases hk : kv.1 = k
    · simp [dictGet, hk] at h
    · simp only [dictGet, hk, if_neg hk] at h
      simp [dictSet, hk, ih h]

/-! ### Decimal rendering of job sequence numbers -/

theorem digitVal_digitChar (d : Nat) (h : d < 10) : digitVal (digitChar d) = d := by
  interval_cases d <;> rfl

theorem charsVal_append_digit (xs : List Char) (c : Char) :
    charsVal (xs ++ [c]) = charsVal xs * 10 + digitVal c := by
  simp [charsVal, List.foldl_append]

theorem charsVal_decCharsAux (fuel : Nat) :
    ∀ n : Nat, n < fuel → charsVal (decCharsAux fuel n) = n := by
  induction fuel with
  | zero => intro n h; omega
  | succ m ih =>
    intro n h
    show charsVal (if n < 10 then [digitChar n]
      else decCharsAux m (n / 10) ++ [digitChar (n % 10)]) = n
    by_cases h10 : n < 10
    · rw [if_pos h10]
      show 0 * 10 + digitVal (digitChar n) = n
      rw [digitVal_digitChar n h10]; omega
    · have hdiv : n / 10 < n := Nat.div_lt_self (by omega) (by omega)
      rw [if_neg h10, charsVal_append_digit, ih (n / 10) (by omega),
        digitVal_digitChar (n % 10) (Nat.mod_lt _ (by omega))]
      omega

theorem charsVal_decChars (n : Nat) : charsVal (decChars n) = n :=
  charsVal_decCharsAux (n + 1) n (Nat.lt_succ_self n)

theorem charsVal_zeroPad3 (n : Nat) : charsVal (zeroPad3 n) = n := by
  have hz : ∀ (k : Nat) (ds : List Char),
      charsVal (List.replicate k '0' ++ ds) = charsVal ds := by
    intro k
    induction k with
    | zero => intro ds; rfl
    | succ m ih => intro ds; exact ih ds
  rw [zeroPad3, hz, charsVal_decChars]

theorem jobIdFormat_inj : Function.Injective jobIdFormat := by
  intro a b h
  have hd : ('j' :: 'o' :: 'b' :: '-' :: zeroPad3 a : List Char) =
      'j' :: 'o' :: 'b' :: '-' :: zeroPad3 b := by
    have h1 : (jobIdFormat a).data = (jobIdFormat b).data := by rw [h]
    exact h1
  have hz : zeroPad3 a = zeroPad3 b := by
    simpa using hd
  have hv := congrArg charsVal hz
  rwa [charsVal_zeroPad3, charsVal_zeroPad3] at hv


/-! ### Claim theorems -/

/-- C9: the scripted status-transition hook installed by
`setup_simple_job_status_flow` ignores its `current_status` argument: at the same
point of a job's script (same `job_stacks` state), invocations that differ only
in `current_status` return the same status (and the same next state). -/
theorem c9_hook_ignores_current_status (template : List String) (st : UpdState)
    (jid ca cb : String) :
    runUpdater (.simpleFlow template) st jid ca =
      runUpdater (.simpleFlow template) st jid cb := rfl

/-- C10: in the `process_id` filter of `get_pg`, a node whose descriptor lacks a
`process_id` key is safely skipped: appending such a node to the graph leaves the
match list unchanged, and a graph of only such nodes matches nothing. -/
theorem c10_keyless_nodes_skipped (pg : PG) (nid : String) (node : PyDict)
    (pid : Option String) (hnode : dictGet node "process_id" = none)
    (hpid : pyTruthy pid = true) :
    DummyBackend.foundNodes (pg ++ [(nid, node)]) pid = DummyBackend.foundNodes pg pid ∧
    DummyBackend.foundNodes [(nid, node)] pid = [] := by
  obtain ⟨p, rfl⟩ : ∃ p, pid = some p := by
    cases pid with
    | none => simp [pyTruthy] at hpid
    | some p => exact ⟨p, rfl⟩
  constructor
  · simp [DummyBackend.foundNodes, hnode]
  · simp [DummyBackend.foundNodes, hnode]

/-- Witness for C10 at a concrete graph and node. -/
theorem c10_witness :
    DummyBackend.foundNodes (simpleBody.pg ++ [("save1", bareNode)]) (some "add") =
      DummyBackend.foundNodes simpleBody.pg (some "add") ∧
    DummyBackend.foundNodes [("save1", bareNode)] (some "add") = [] :=
  c10_keyless_nodes_skipped simpleBody.pg "save1" bareNode (some "add") rfl rfl

/-- C2: `GET /jobs/{job_id}` on an existing job: if the stored status is
`created`, the handler returns `created` and leaves the backend state (hence the
hook state) untouched — so a never-started job reads `created` indefinitely;
otherwise it invokes the hook on `(job_id, current_status)`, stores the returned
status, and reports it. -/
theorem c2_get_job_reads (b : DummyBackend) (path jid : String) (jd : JobData)
    (hpath : DummyBackend.parseJobPath path = some jid)
    (hjob : dictGet b.batch_jobs jid = some jd) :
    (jd.status = "created" →
      DummyBackend._handle_get_job b path = .ok (b, { id := jid, status := "created" })) ∧
    (jd.status ≠ "created" →
      DummyBackend._handle_get_job b path =
        .ok ({ b with
                batch_jobs := dictSet b.batch_jobs jid
                  { jd with status := (runUpdater b.job_status_updater b.job_stacks jid jd.status).1 }
                job_stacks := (runUpdater b.job_status_updater b.job_stacks jid jd.status).2 },
             { id := jid,
               status := (runUpdater b.job_status_updater b.job_stacks jid jd.status).1 })) := by
  constructor
  · intro hs
    simp [DummyBackend._handle_get_job, DummyBackend._get_job_id, hpath, hjob, hs]
  · intro hs
    simp [DummyBackend._handle_get_job, DummyBackend._get_job_id, hpath, hjob, hs]

/-- Witness for C2: reading the never-started `job-000` returns `created` and
keeps the backend unchanged. -/
theorem c2_witness :
    DummyBackend._handle_get_job c1Created "/jobs/job-000" =
      .ok (c1Created, { id := "job-000", status := "created" }) :=
  (c2_get_job_reads c1Created "/jobs/job-000" "job-000" c1JobData rfl (by decide)).1 rfl

/-- C3: `POST /jobs/{job_id}/results` (start): on a missing job the membership
assertion fails; on a job in status `created` the hook is invoked on
`(job_id, "created")`, its result is stored, and the handler answers 202; on a
job in any other status (e.g. a second `start`) the state-transition assertion
fails. -/
theorem c3_start_job (b : DummyBackend) (path jid : String)
    (hpath : DummyBackend.parseJobPath path = some jid) :
    (dictGet b.batch_jobs jid = none →
      DummyBackend._handle_post_job_results b path =
        .error (.assertionError "job_id in self.batch_jobs")) ∧
    (∀ jd : JobData, dictGet b.batch_jobs jid = some jd →
      (jd.status = "created" →
        DummyBackend._handle_post_job_results b path =
          .ok ({ b with
                  batch_jobs := dictSet b.batch_jobs jid
                    { jd with status := (runUpdater b.job_status_updater b.job_stacks jid "created").1 }
                  job_stacks := (runUpdater b.job_status_updater b.job_stacks jid "created").2 },
               202)) ∧
      (jd.status ≠ "created" →
        DummyBackend._handle_post_job_results b path =
          .error (.assertionError "self.batch_jobs[job_id][status] == created"))) := by
  refine ⟨?_, ?_⟩
  · intro hnone
    simp [DummyBackend._handle_post_job_results, DummyBackend._get_job_id, hpath, hnone]
  · intro jd hjob
    constructor
    · intro hs
      simp [DummyBackend._handle_post_job_results, DummyBackend._get_job_id, hpath, hjob, hs]
    · intro hs
      simp [DummyBackend._handle_post_job_results, DummyBackend._get_job_id, hpath, hjob, hs]

/-- Witness for C3: starting the freshly created `job-000` succeeds with 202 and
stores the hook result. -/
theorem c3_witness :
    DummyBackend._handle_post_job_results c1Created "/jobs/job-000" =
      .ok ({ c1Created with
              batch_jobs := dictSet c1Created.batch_jobs "job-000"
                { c1JobData with
                  status := (runUpdater c1Created.job_status_updater c1Created.job_stacks
                    "job-000" "created").1 }
              job_stacks := (runUpdater c1Created.job_status_updater c1Created.job_stacks
                "job-000" "created").2 },
           202) :=
  ((c3_start_job c1Created "/jobs/job-000" "job-000" rfl).2 c1JobData (by decide)).1 rfl

/-- C7 counterexample: on a well-formed path whose job id is unknown, the failure
is the generic assertion (`assert job_id in self.batch_jobs`), not the named
`OpeneoTestingException` the claim requires for both failure cases. -/
theorem c7_counterexample :
    DummyBackend._get_job_id initialBackend "/jobs/job-000" =
      .error (.assertionError "job_id in self.batch_jobs") ∧
    errKindOf (DummyBackend._get_job_id initialBackend "/jobs/job-000") = some false :=
  ⟨rfl, rfl⟩

/-- C7 (amended): job-id extraction matches `^/jobs/(job-\d+)(/|$)`; a
non-matching path fails with the named `OpeneoTestingException`, while a matching
path whose id is not a known job fails with a generic assertion error; a known id
is returned. -/
theorem c7_job_id_extraction (b : DummyBackend) (path : String) :
    (DummyBackend.parseJobPath path = none →
      DummyBackend._get_job_id b path =
        .error (.openeoTestingException ("Failed to extract job_id from " ++ path))) ∧
    (∀ jid : String, DummyBackend.parseJobPath path = some jid →
      dictGet b.batch_jobs jid = none →
      DummyBackend._get_job_id b path = .error (.assertionError "job_id in self.batch_jobs")) ∧
    (∀ (jid : String) (jd : JobData), DummyBackend.parseJobPath path = some jid →
      dictGet b.batch_jobs jid = some jd →
      DummyBackend._get_job_id b path = .ok jid) := by
  refine ⟨?_, ?_, ?_⟩
  · intro hnone
    simp [DummyBackend._get_job_id, hnone]
  · intro jid hpath hnone
    simp [DummyBackend._get_job_id, hpath, hnone]
  · intro jid jd hpath hjob
    simp [DummyBackend._get_job_id, hpath, hjob]

/-- Witness for C7 (amended): a path that does not match the pattern fails with
the named exception. -/
theorem c7_witness :
    DummyBackend._get_job_id initialBackend "/foo" =
      .error (.openeoTestingException "Failed to extract job_id from /foo") :=
  (c7_job_id_extraction initialBackend "/foo").1 rfl

/-- One unfolding step of `readStatuses`. -/
theorem readStatuses_succ (b : DummyBackend) (p : String) (n : Nat) :
    readStatuses b p (n + 1) = (readStep b p).2 :: readStatuses (readStep b p).1 p n := rfl

/-- After five reads the C1 run reaches a fixed point: every further read reports
`finished` and leaves the state unchanged. -/
theorem c1Settled_fixed : readStep c1Settled "/jobs/job-000" = (c1Settled, "finished") := rfl

/-- All reads from the settled C1 state report `finished`. -/
theorem c1_replicate_finished (n : Nat) :
    readStatuses c1Settled "/jobs/job-000" n = List.replicate n "finished" := by
  induction n with
  | zero => rfl
  | succ k ih => simp [readStatuses_succ, c1Settled_fixed, ih, List.replicate_succ]

/-- C1 counterexample: under the scripted policy `queued=1, running=4,
final="finished"`, `start` itself consumes the `queued` entry, so the six reads
after `start` report `running, running, running, running, finished, finished` —
not the claimed `queued, running, running, running, running, finished`. -/
theorem c1_counterexample :
    readStatuses c1Started "/jobs/job-000" 6 =
      ["running", "running", "running", "running", "finished", "finished"] ∧
    readStatuses c1Started "/jobs/job-000" 6 ≠
      ["queued", "running", "running", "running", "running", "finished"] := by
  have h1 : readStatuses c1Started "/jobs/job-000" 6 =
      ["running", "running", "running", "running", "finished", "finished"] := rfl
  refine ⟨h1, ?_⟩
  rw [h1]
  decide

/-- C1 (amended): with the scripted policy `queued=1, running=4,
final="finished"`, `start` stores status `queued`; the first four status reads
then report `running` and the fifth and every subsequent read reports
`finished`. -/
theorem c1_scripted_flow (n : Nat) :
    readStatuses c1Started "/jobs/job-000" (n + 5) =
      "running" :: "running" :: "running" :: "running" :: "finished" ::
        List.replicate n "finished" ∧
    (dictGet c1Started.batch_jobs "job-000").map JobData.status = some "queued" := by
  refine ⟨?_, rfl⟩
  have h : readStatuses c1Started "/jobs/job-000" (n + 5) =
      "running" :: "running" :: "running" :: "running" :: "finished" ::
        readStatuses c1Settled "/jobs/job-000" n := rfl
  rw [h, c1_replicate_finished]

/-- When the registry keys are exactly the ids `job-000 .. job-(m-1)`, creating a
job appends a fresh record keyed by the next sequential id. -/
theorem post_jobs_appends (b : DummyBackend) (body : PostJobsBody)
    (hids : b.batch_jobs.map Prod.fst = (List.range b.batch_jobs.length).map jobIdFormat) :
    (DummyBackend._handle_post_jobs b body).1.batch_jobs =
      b.batch_jobs ++ [(jobIdFormat b.batch_jobs.length,
        { job_id := jobIdFormat b.batch_jobs.length, pg := body.pg, status := "created",
          meta := DummyBackend.buildJobMeta body.fields b.extra_job_metadata_fields })] := by
  have hfresh : dictGet b.batch_jobs (jobIdFormat b.batch_jobs.length) = none := by
    apply dictGet_eq_none_of_not_mem
    rw [hids]
    intro hmem
    simp only [List.mem_map, List.mem_range] at hmem
    obtain ⟨j, hj, hjeq⟩ := hmem
    exact absurd (jobIdFormat_inj hjeq) (by omega)
  simp [DummyBackend._handle_post_jobs, dictSet_append_of_fresh _ _ _ hfresh]

/-- Invariant of a creation sequence: starting from registry keys
`job-000 .. job-(m-1)`, the ids stay sequential, every response carries the next
sequential id with code 201, and all-created statuses are preserved. -/
theorem createJobs_spec (bodies : List PostJobsBody) :
    ∀ b : DummyBackend,
      b.batch_jobs.map Prod.fst = (List.range b.batch_jobs.length).map jobIdFormat →
      ((createJobs b bodies).1.batch_jobs.map Prod.fst =
        (List.range (b.batch_jobs.length + bodies.length)).map jobIdFormat) ∧
      ((createJobs b bodies).2.map PostJobsResponse.openeo_identifier =
        (List.range bodies.length).map (fun i => jobIdFormat (b.batch_jobs.length + i))) ∧
      ((createJobs b bodies).2.all (fun r => r.status_code == 201) = true) ∧
      (b.batch_jobs.all (fun kv => kv.2.status == "created") = true →
        (createJobs b bodies).1.batch_jobs.all (fun kv => kv.2.status == "created") = true) := by
  induction bodies with
  | nil =>
    intro b hids
    exact ⟨by simpa [createJobs] using hids, rfl, rfl, fun h => h⟩
  | cons body rest ih =>
    intro b hids
    have happ := post_jobs_appends b body hids
    have hlen' : (DummyBackend._handle_post_jobs b body).1.batch_jobs.length =
        b.batch_jobs.length + 1 := by
      rw [happ]; simp
    have hids' : (DummyBackend._handle_post_jobs b body).1.batch_jobs.map Prod.fst =
        (List.range (DummyBackend._handle_post_jobs b body).1.batch_jobs.length).map
          jobIdFormat := by
      rw [hlen', happ, List.range_succ]
      simp [hids]
    have hres := ih (DummyBackend._handle_post_jobs b body).1 hids'
    rw [hlen'] at hres
    refine ⟨?_, ?_, ?_, ?_⟩
    · have h1 := hres.1
      have harith : b.batch_jobs.length + 1 + rest.length =
          b.batch_jobs.length + (rest.length + 1) := by omega
      rw [harith] at h1
      simpa [createJobs] using h1
    · have h2 := hres.2.1
      show (DummyBackend._handle_post_jobs b body).2.openeo_identifier ::
          (createJobs (DummyBackend._handle_post_jobs b body).1 rest).2.map
            PostJobsResponse.openeo_identifier =
        (List.range (rest.length + 1)).map (fun i => jobIdFormat (b.batch_jobs.length + i))
      rw [List.range_succ_eq_map, List.map_cons, List.map_map, h2]
      refine congrArg₂ _ (by simp [DummyBackend._handle_post_jobs]) ?_
      refine List.map_congr_left ?_
      intro j _
      show jobIdFormat (b.batch_jobs.length + 1 + j) =
        jobIdFormat (b.batch_jobs.length + (j + 1))
      exact congrArg jobIdFormat (by omega)
    · have h3 := hres.2.2.1
      simpa [createJobs, DummyBackend._handle_post_jobs] using h3
    · intro hall
      have hall' : (DummyBackend._handle_post_jobs b body).1.batch_jobs.all
          (fun kv => kv.2.status == "created") = true := by
        rw [happ, List.all_append, hall]
        rfl
      have h4 := hres.2.2.2 hall'
      simpa [createJobs] using h4

/-- C4: on one backend instance, every sequence of batch-job creations assigns
ids `job-000, job-001, ...` in strictly increasing creation order with no gaps
and no reuse (`jobIdFormat` zero-pads the sequence number to width 3); each job
is stored with initial status `created`, and each 201 response carries the new
id in its `openeo-identifier` header. -/
theorem c4_job_id_allocation (bodies : List PostJobsBody) (b0 : DummyBackend)
    (h0 : b0.batch_jobs = []) :
    ((createJobs b0 bodies).1.batch_jobs.map Prod.fst =
      (List.range bodies.length).map jobIdFormat) ∧
    ((createJobs b0 bodies).1.batch_jobs.map Prod.fst).Nodup ∧
    ((createJobs b0 bodies).1.batch_jobs.all (fun kv => kv.2.status == "created") = true) ∧
    ((createJobs b0 bodies).2.map PostJobsResponse.openeo_identifier =
      (List.range bodies.length).map jobIdFormat) ∧
    ((createJobs b0 bodies).2.all (fun r => r.status_code == 201) = true) := by
  have hids0 : b0.batch_jobs.map Prod.fst =
      (List.range b0.batch_jobs.length).map jobIdFormat := by
    rw [h0]; rfl
  have h := createJobs_spec bodies b0 hids0
  rw [show b0.batch_jobs.length = 0 from by rw [h0]; rfl] at h
  have hfst : (createJobs b0 bodies).1.batch_jobs.map Prod.fst =
      (List.range bodies.length).map jobIdFormat := by simpa using h.1
  refine ⟨hfst, ?_, ?_, ?_, h.2.2.1⟩
  · rw [hfst]
    exact (List.nodup_range bodies.length).map jobIdFormat_inj
  · exact h.2.2.2 (by rw [h0]; rfl)
  · have h2 := h.2.1
    simpa using h2

/-- Witness for C4 at two concrete creations on a fresh backend. -/
theorem c4_witness :
    ((createJobs initialBackend c4Bodies).1.batch_jobs.map Prod.fst =
      (List.range c4Bodies.length).map jobIdFormat) ∧
    ((createJobs initialBackend c4Bodies).1.batch_jobs.map Prod.fst).Nodup ∧
    ((createJobs initialBackend c4Bodies).1.batch_jobs.all
      (fun kv => kv.2.status == "created") = true) ∧
    ((createJobs initialBackend c4Bodies).2.map PostJobsResponse.openeo_identifier =
      (List.range c4Bodies.length).map jobIdFormat) ∧
    ((createJobs initialBackend c4Bodies).2.all (fun r => r.status_code == 201) = true) :=
  c4_job_id_allocation c4Bodies initialBackend rfl

/-- The extra-fields loop of `buildJobMeta` does not touch keys outside `extra`. -/
theorem dictGet_foldl_setall_not_mem (fields : List (String × String)) :
    ∀ (extra : List String) (f : String), f ∉ extra →
      ∀ m : List (String × Option String),
        dictGet (extra.foldl (fun m g => dictSet m g (dictGet fields g)) m) f = dictGet m f := by
  intro extra
  induction extra with
  | nil => intro f _ m; rfl
  | cons g gs ih =>
    intro f hf m
    simp only [List.mem_cons, not_or] at hf
    rw [List.foldl_cons, ih f hf.2, dictGet_dictSet_ne _ _ _ _ hf.1]

/-- The extra-fields loop of `buildJobMeta` sets every key of `extra` to the
body's value of that key (`none` when the body lacks it). -/
theorem dictGet_foldl_setall_mem (fields : List (String × String)) :
    ∀ (extra : List String) (f : String), f ∈ extra →
      ∀ m : List (String × Option String),
        dictGet (extra.foldl (fun m g => dictSet m g (dictGet fields g)) m) f =
          some (dictGet fields f) := by
  intro extra
  induction extra with
  | nil => intro f hf; cases hf
  | cons g gs ih =>
    intro f hf m
    by_cases hgs : f ∈ gs
    · rw [List.foldl_cons]
      exact ih f hgs _
    · have hfg : f = g := by
        rcases List.mem_cons.mp hf with h | h
        · exact h
        · exact absurd h hgs
      subst hfg
      rw [List.foldl_cons, dictGet_foldl_setall_not_mem fields gs f hgs, dictGet_dictSet_self]

/-- The title/description loop of `buildJobMeta` copies exactly the present
fields. -/
theorem dictGet_meta0 (fields : List (String × String)) (f : String)
    (hf : f = "title" ∨ f = "description") :
    dictGet (["title", "description"].foldl (fun m g =>
      match dictGet fields g with
      | some v => dictSet m g (some v)
      | none => m) ([] : List (String × Option String))) f =
      (dictGet fields f).map some := by
  rcases hf with rfl | rfl <;>
    rcases ht : dictGet fields "title" with _ | tv <;>
      rcases hd : dictGet fields "description" with _ | dv <;>
        simp [List.foldl_cons, List.foldl_nil, ht, hd, dictGet, dictSet]

/-- C8 counterexample: with `extra_job_metadata_fields = ["foo"]` and a creation
body that has a title but no `foo` field, the stored record still gains a `foo`
key (with value `None`), contradicting the claim that absent fields are not
added. -/
theorem c8_counterexample :
    dictGet c8Body.fields "foo" = none ∧
    (dictGet c8Created.batch_jobs "job-000").map JobData.meta =
      some [("title", some "Job title"), ("foo", none)] :=
  ⟨rfl, rfl⟩

/-- C8 (amended): the created record stores `title`/`description` exactly when
present in the request body (copied verbatim), while every configured extra
metadata field is always added to the record — with the body's value when
present and `None` when absent. -/
theorem c8_metadata_copies (b : DummyBackend) (body : PostJobsBody) :
    (dictGet (DummyBackend._handle_post_jobs b body).1.batch_jobs
        (jobIdFormat b.batch_jobs.length) =
      some { job_id := jobIdFormat b.batch_jobs.length, pg := body.pg, status := "created",
             meta := DummyBackend.buildJobMeta body.fields b.extra_job_metadata_fields }) ∧
    (∀ f : String, (f = "title" ∨ f = "description") → f ∉ b.extra_job_metadata_fields →
      dictGet (DummyBackend.buildJobMeta body.fields b.extra_job_metadata_fields) f =
        (dictGet body.fields f).map some) ∧
    (∀ f : String, f ∈ b.extra_job_metadata_fields →
      dictGet (DummyBackend.buildJobMeta body.fields b.extra_job_metadata_fields) f =
        some (dictGet body.fields f)) := by
  refine ⟨?_, ?_, ?_⟩
  · simp [DummyBackend._handle_post_jobs, dictGet_dictSet_self]
  · intro f hf hnot
    simp only [DummyBackend.buildJobMeta]
    rw [dictGet_foldl_setall_not_mem body.fields b.extra_job_metadata_fields f hnot]
    exact dictGet_meta0 body.fields f hf
  · intro f hf
    simp only [DummyBackend.buildJobMeta]
    exact dictGet_foldl_setall_mem body.fields b.extra_job_metadata_fields f hf _

/-- Witness for C8 (amended) on `c8Backend`/`c8Body`: the present `title` is
copied verbatim and the absent extra field `foo` is set to `None`. -/
theorem c8_witness :
    (dictGet (DummyBackend.buildJobMeta c8Body.fields c8Backend.extra_job_metadata_fields)
        "title" = (dictGet c8Body.fields "title").map some) ∧
    (dictGet (DummyBackend.buildJobMeta c8Body.fields c8Backend.extra_job_metadata_fields)
        "foo" = some (dictGet c8Body.fields "foo")) :=
  ⟨(c8_metadata_copies c8Backend c8Body).2.1 "title" (Or.inl rfl) (by decide),
   (c8_metadata_copies c8Backend c8Body).2.2 "foo" (by decide)⟩

/-- C5: `get_pg` pools all synchronous graphs and batch-job graphs; with a pool
of any size other than one it raises the ambiguous-capture error reporting the
actual count (in particular one sync plus one batch job reports count 2); with a
single pooled graph it returns the graph when no (truthy) `process_id` filter is
given, and with a filter it returns the unique matching node or raises the error
reporting the number (and rendering) of matching nodes. -/
theorem c5_get_pg (b : DummyBackend) (pid : Option String) :
    ((DummyBackend.collectedPgs b).length ≠ 1 →
      DummyBackend.get_pg b pid =
        .error (.openeoTestingException
          (DummyBackend.graphCountMsg (DummyBackend.collectedPgs b).length))) ∧
    (∀ pg : PG, DummyBackend.collectedPgs b = [pg] →
      (pyTruthy pid = false → DummyBackend.get_pg b pid = .ok (.graph pg)) ∧
      (pyTruthy pid = true →
        (∀ node : PyDict, DummyBackend.foundNodes pg pid = [node] →
          DummyBackend.get_pg b pid = .ok (.node node)) ∧
        ((DummyBackend.foundNodes pg pid).length ≠ 1 →
          DummyBackend.get_pg b pid =
            .error (.openeoTestingException
              (DummyBackend.nodeCountMsg pid (DummyBackend.foundNodes pg pid)))))) ∧
    (b.sync_requests.length = 1 → b.batch_jobs.length = 1 →
      DummyBackend.get_pg b pid =
        .error (.openeoTestingException (DummyBackend.graphCountMsg 2))) := by
  refine ⟨?_, ?_, ?_⟩
  · intro hlen
    simp [DummyBackend.get_pg, hlen]
  · intro pg hpool
    refine ⟨?_, ?_⟩
    · intro hfalse
      simp [DummyBackend.get_pg, hpool, hfalse]
    · intro htrue
      refine ⟨?_, ?_⟩
      · intro node hnode
        simp [DummyBackend.get_pg, hpool, htrue, hnode]
      · intro hcount
        simp [DummyBackend.get_pg, hpool, htrue, hcount]
  · intro h1 h2
    have hl : (DummyBackend.collectedPgs b).length = 2 := by
      simp [DummyBackend.collectedPgs, h1, h2]
    simp [DummyBackend.get_pg, hl]

/-- Witness for C5: one synchronous execution plus one batch job make `get_pg`
raise the ambiguous-capture error with count 2. -/
theorem c5_witness :
    DummyBackend.get_pg c5Both (some "add") =
      .error (.openeoTestingException (DummyBackend.graphCountMsg 2)) :=
  (c5_get_pg c5Both (some "add")).2.2 rfl rfl

/-- C6 counterexample: with a mapping configured as `next_result` and a finished
job, the result-asset handler returns the mapping itself, unserialized — not its
JSON byte form: no normalization happens in this handler. -/
theorem c6_counterexample :
    DummyBackend._handle_get_job_result_asset c6Backend "/jobs/job-000" =
      .ok (PyResult.json c6Val) ∧
    DummyBackend._handle_get_job_result_asset c6Backend "/jobs/job-000" ≠
      .ok (PyResult.bytes (strToBytes (jsonDumps c6Val))) := by
  have h1 : DummyBackend._handle_get_job_result_asset c6Backend "/jobs/job-000" =
      .ok (PyResult.json c6Val) := rfl
  refine ⟨h1, ?_⟩
  rw [h1]
  intro h
  injection h with h2
  exact PyResult.noConfusion h2

/-- C6 (amended): `next_result` accepts bytes, text or structured data; the
synchronous `POST /result` handler normalizes it to bytes at response time
(JSON-serializing mappings/sequences), while the batch result-asset handler
returns the configured value unchanged. -/
theorem c6_result_normalization :
    (∀ (b : DummyBackend) (pg : PG),
      (DummyBackend._handle_post_result b pg).2 = normalizeResult b.next_result) ∧
    (∀ v : JsonVal, normalizeResult (.json v) = strToBytes (jsonDumps v)) ∧
    (∀ s : String, normalizeResult (.text s) = strToBytes s) ∧
    (∀ bs : List Nat, normalizeResult (.bytes bs) = bs) ∧
    (∀ (b : DummyBackend) (path jid : String) (jd : JobData),
      DummyBackend.parseJobPath path = some jid →
      dictGet b.batch_jobs jid = some jd →
      jd.status = "finished" →
      DummyBackend._handle_get_job_result_asset b path = .ok b.next_result) := by
  refine ⟨fun b pg => rfl, fun v => rfl, fun s => rfl, fun bs => rfl, ?_⟩
  intro b path jid jd hpath hjob hs
  simp [DummyBackend._handle_get_job_result_asset, DummyBackend._get_job_id, hpath, hjob, hs]

/-- Witness for C6 (amended): the finished job on `c6Backend` serves its
configured `next_result`. -/
theorem c6_witness :
    DummyBackend._handle_get_job_result_asset c6Backend "/jobs/job-000" =
      .ok c6Backend.next_result :=
  c6_result_normalization.2.2.2.2 c6Backend "/jobs/job-000" "job-000" c6JobData
    rfl (by decide) rfl
